import Mathlib

set_option maxRecDepth 8000

/-!
Shallow embedding of the mkpipe ClickHouse loader
(src/mkpipe_loader_clickhouse/__init__.py).

The embedding covers:
* the dataframe stamping step add_custom_columns (drop-then-add of the
  etl_time provenance column);
* the JDBC URL construction done in ClickhouseLoader.__init__, together
  with a model of urllib.parse.quote_plus over UTF-8 bytes;
* the load orchestration: manifest updates, parser and sink invocations,
  staging cleanup, and the exception handler, as a function from a batch
  descriptor and an environment of external-call results to the list of
  emitted external events and the call outcome.

External collaborators (manifest store, parser registry, Spark write path,
staging deletion) are modelled by their observable calls: each call is
recorded as an event, and the fallible ones take their result (normal
return or raised exception text) from an Env oracle.  Manifest updates
are modelled as always succeeding.
-/

/-- Column expression in the dataframe model: `orig` stands for a column
that was already present in the parsed data, `tsLit` models the expression
`F.lit(t).cast(TimestampType())` used for the provenance column. -/
inductive ColExpr where
  | orig (id : Nat)
  | tsLit (t : String)
deriving DecidableEq, Repr

/-- A dataframe is modelled by its named columns in order; row contents are
irrelevant to every claim about the stamping step. -/
abbrev DF := List (String × ColExpr)

/-- Embeds `df.columns`. -/
def DF.columns (df : DF) : List String := df.map Prod.fst

/-- Embeds `df.drop(c)`: removes every column named `c`. -/
def dropColumn (df : DF) (c : String) : DF := df.filter (fun p => p.1 != c)

/-- Embeds `df.withColumn(c, v)`: replaces the column named `c` when it
exists, otherwise appends it at the end. -/
def withColumn (df : DF) (c : String) (v : ColExpr) : DF :=
  if c ∈ DF.columns df then df.map (fun p => if p.1 = c then (c, v) else p)
  else df ++ [(c, v)]

/-- Embeds `ClickhouseLoader.add_custom_columns`: drop the `etl_time`
column when present, then add it holding the load-start timestamp cast to
a timestamp value. -/
def add_custom_columns (df : DF) (elt_start_time : String) : DF :=
  let df1 := if "etl_time" ∈ DF.columns df then dropColumn df "etl_time" else df
  withColumn df1 "etl_time" (ColExpr.tsLit elt_start_time)

/-- The conditional drop performed first by the stamping step. -/
def stripEtl (df : DF) : DF :=
  if "etl_time" ∈ DF.columns df then dropColumn df "etl_time" else df

theorem mem_columns_dropColumn (df : DF) (c : String) :
    c ∉ DF.columns (dropColumn df c) := by
  intro h
  simp only [DF.columns, dropColumn, List.mem_map] at h
  obtain ⟨p, hp, hfst⟩ := h
  rw [List.mem_filter] at hp
  have := hp.2
  rw [bne_iff_ne] at this
  exact this hfst

theorem dropColumn_eq_self (df : DF) (c : String) (h : c ∉ DF.columns df) :
    dropColumn df c = df := by
  apply List.filter_eq_self.mpr
  intro p hp
  rw [bne_iff_ne]
  intro hfst
  exact h (show c ∈ DF.columns df from List.mem_map.mpr ⟨p, hp, hfst⟩)

/-- The column list after the conditional drop never contains the stamp
column. -/
theorem stripEtl_not_mem (df : DF) : "etl_time" ∉ DF.columns (stripEtl df) := by
  unfold stripEtl
  split
  · exact mem_columns_dropColumn df "etl_time"
  · next h => exact h

theorem withColumn_of_not_mem (df : DF) (c : String) (v : ColExpr)
    (h : c ∉ DF.columns df) : withColumn df c v = df ++ [(c, v)] := by
  unfold withColumn
  rw [if_neg h]

/-- The stamping step always reduces to: strip every existing `etl_time`
column, then append a fresh one at the end. -/
theorem add_custom_columns_eq (df : DF) (t : String) :
    add_custom_columns df t = stripEtl df ++ [("etl_time", ColExpr.tsLit t)] := by
  unfold add_custom_columns stripEtl
  exact withColumn_of_not_mem _ _ _ (stripEtl_not_mem df)

theorem columns_append (df1 df2 : DF) :
    DF.columns (df1 ++ df2) = DF.columns df1 ++ DF.columns df2 := by
  simp [DF.columns]

/-- Stripping after appending a fresh stamp column undoes the append, as
long as the base had no stamp column. -/
theorem stripEtl_append_etl (d : DF) (hd : "etl_time" ∉ DF.columns d) (t1 : String) :
    stripEtl (d ++ [("etl_time", ColExpr.tsLit t1)]) = d := by
  have hmem : "etl_time" ∈ DF.columns (d ++ [("etl_time", ColExpr.tsLit t1)]) := by
    rw [columns_append]; simp [DF.columns]
  unfold stripEtl
  rw [if_pos hmem]
  unfold dropColumn
  rw [List.filter_append]
  rw [show List.filter (fun p => p.1 != "etl_time") d = d from dropColumn_eq_self d _ hd]
  simp

/- ===== quote_plus and the JDBC URL ===== -/

/-- Bytes that `urllib.parse.quote_plus` leaves unescaped: ASCII letters,
digits, underscore, dot, hyphen, tilde. -/
def isSafeByte (n : Nat) : Bool :=
  (65 ≤ n && n ≤ 90) || (97 ≤ n && n ≤ 122) || (48 ≤ n && n ≤ 57) ||
    n == 95 || n == 46 || n == 45 || n == 126

/-- Uppercase hexadecimal digit, as produced by percent-encoding. -/
def hexDigit (n : Nat) : Char := if n < 10 then Char.ofNat (48 + n) else Char.ofNat (55 + n)

/-- Encoding of one byte under `quote_plus`: safe bytes are kept, space
becomes a plus sign, everything else becomes a percent escape. -/
def quoteByte (n : Nat) : List Char :=
  if isSafeByte n then [Char.ofNat n]
  else if n == 32 then [Char.ofNat 43]
  else [Char.ofNat 37, hexDigit (n / 16), hexDigit (n % 16)]

/-- UTF-8 encoding of one code point, as a list of byte values. -/
def utf8Bytes (c : Nat) : List Nat :=
  if c < 128 then [c]
  else if c < 2048 then [192 + c / 64, 128 + c % 64]
  else if c < 65536 then [224 + c / 4096, 128 + (c / 64) % 64, 128 + c % 64]
  else [240 + c / 262144, 128 + (c / 4096) % 64, 128 + (c / 64) % 64, 128 + c % 64]

/-- Embeds `urllib.parse.quote_plus`: percent-encode the UTF-8 bytes of
the string, with space encoded as a plus sign. -/
def quote_plus (s : String) : String :=
  String.mk (s.data.flatMap (fun ch => (utf8Bytes ch.toNat).flatMap quoteByte))

/-- Characters that may appear in `quote_plus` output: the safe bytes, the
plus sign, and the percent sign (hex digits are safe bytes themselves). -/
def urlSafeOutput (c : Char) : Bool :=
  isSafeByte c.toNat || c.toNat == 43 || c.toNat == 37

theorem utf8Bytes_lt (c : Nat) (h : c < 1114112) : ∀ b ∈ utf8Bytes c, b < 256 := by
  unfold utf8Bytes
  split
  · intro b hb; simp at hb; omega
  · split
    · intro b hb; simp at hb; rcases hb with h1 | h1 <;> omega
    · split
      · intro b hb; simp at hb; rcases hb with h1 | h1 | h1 <;> omega
      · intro b hb; simp at hb; rcases hb with h1 | h1 | h1 | h1 <;> omega

theorem char_toNat_lt (c : Char) : c.toNat < 1114112 := by
  rcases c with ⟨v, hv⟩
  rcases hv with h | ⟨_, h⟩ <;> simp [Char.toNat] <;> omega

theorem quoteByte_safe : ∀ n < 256, ∀ c ∈ quoteByte n, urlSafeOutput c = true := by decide

/-- Every character of a `quote_plus` result is URL-safe output. -/
theorem quote_plus_safe (s : String) :
    ∀ c ∈ (quote_plus s).data, urlSafeOutput c = true := by
  intro c hc
  have hdata : (quote_plus s).data = s.data.flatMap (fun ch => (utf8Bytes ch.toNat).flatMap quoteByte) := rfl
  rw [hdata, List.mem_flatMap] at hc
  obtain ⟨ch, _, hc2⟩ := hc
  rw [List.mem_flatMap] at hc2
  obtain ⟨b, hb, hcb⟩ := hc2
  exact quoteByte_safe b (utf8Bytes_lt ch.toNat (char_toNat_lt ch) b hb) c hcb

/-- Embeds `self.driver_name`. -/
def driver_name : String := "clickhouse"

/-- Embeds `self.driver_jdbc`. -/
def driver_jdbc : String := "com.clickhouse.jdbc.ClickHouseDriver"

/-- Embeds the construction of `self.jdbc_url` in `ClickhouseLoader.__init__`:
the username is interpolated verbatim, the password is the stored
`quote_plus` of the configured password. -/
def jdbc_url (host port database username password : String) : String :=
  "jdbc:" ++ driver_name ++ "://" ++ host ++ ":" ++ port ++ "/" ++ database ++
    "?user=" ++ username ++ "&password=" ++ quote_plus password

/-- Modelled from the spec: the URL-form descriptor with BOTH credentials
transport-escaped (percent-encoded) before embedding, as the spec sentence
requires.  This definition follows the words of the spec and is compared
against `jdbc_url`, which embeds the source. -/
def jdbc_url_escaped_spec (host port database username password : String) : String :=
  "jdbc:" ++ driver_name ++ "://" ++ host ++ ":" ++ port ++ "/" ++ database ++
    "?user=" ++ quote_plus username ++ "&password=" ++ quote_plus password

/- ===== The load orchestration ===== -/

/-- One call to `backend.manifest_table_update`, with its keyword
arguments.  A `none` cursor value or type means "leave unchanged". -/
structure ManifestUpdate where
  name : String
  value : Option String
  value_type : Option String
  status : String
  replication_method : String
  error_message : String
deriving DecidableEq, Repr

/-- Observable external calls issued by `load`, in program order. -/
inductive Event where
  | manifestUpdate (u : ManifestUpdate)
  | parserCall (file_type : String)
  | sinkWrite (df : DF) (mode : String) (url : String) (dbtable : String)
      (driver : String) (batchsize : Nat)
  | deleteStaging (path : String)
deriving DecidableEq, Repr

/-- The structured context dictionary built by the exception handler and
wrapped into the exception raised when pass-on-error is falsy. -/
structure FailMessage where
  table_name : String
  status : String
  type : String
  error_message : String
  etl_start_time : String
deriving DecidableEq, Repr

/-- How a call to `load` terminates: normal return, the wrapping
`raise Exception(message) from e`, a handler crash on an unbound local
variable, or an exception propagating out unguarded. -/
inductive Outcome where
  | normal
  | raisedWrapped (msg : FailMessage)
  | raisedUnboundLocal (var : String)
  | raisedKeyError (key : String)
deriving DecidableEq, Repr

/-- Result of a call into an external collaborator: normal return, or a
raised exception carrying its text, as Python `str(e)` would render it. -/
inductive PyResult (α : Type) where
  | ok (a : α)
  | raised (e : String)
deriving DecidableEq, Repr

def PyResult.isOk {α : Type} : PyResult α → Bool
  | .ok _ => true
  | .raised _ => false

/-- The batch descriptor dictionary `data`, field by field as `load` reads
it.  `none` models an absent key; `table_name` and `path` are read with
bracket lookup (raising on absence), the rest with `.get` defaults. -/
structure Batch where
  table_name : Option String
  write_mode : Option String
  file_type : Option String
  last_point_value : Option String
  iterate_column_type : Option String
  replication_method : Option String
  fetchsize : Option Nat
  pass_on_error : Option Bool
  path : Option String
deriving DecidableEq, Repr

/-- Results of the fallible external calls made during one `load` run:
the parser call, the JDBC sink write, and the staging deletion. -/
structure Env where
  parser : PyResult DF
  sink : PyResult Unit
  delete : PyResult Unit
deriving DecidableEq, Repr

/-- Python truthiness of `data.get('file_type', None)`: falsy when the key
is absent or the value is the empty string. -/
def fileTypeFalsy : Option String → Bool
  | none => true
  | some s => s == ""

/-- Embeds the `except Exception as e` handler of `load`, entered with the
events already issued and the exception text: it builds the failure
message, issues the `failed` manifest update with cursor fields passed as
`None`, and then either returns normally (truthy pass-on-error) or raises
the wrapping exception. -/
def failHandler (name repl elt_start_time : String) (pass_on_error : Option Bool)
    (evs : List Event) (err : String) : List Event × Outcome :=
  let msg : FailMessage :=
    ⟨name, "failed", "loading", err, elt_start_time⟩
  let evs2 := evs ++ [Event.manifestUpdate ⟨name, none, none, "failed", repl, err⟩]
  if pass_on_error = some true then (evs2, Outcome.normal)
  else (evs2, Outcome.raisedWrapped msg)

/-- Embeds `ClickhouseLoader.load(data, elt_start_time)`.  `url` is the
`self.jdbc_url` built at construction time.  The whole body sits inside
one `try`: an absent `table_name` key raises before the locals used by
the handler are bound, so the handler itself crashes referencing the
unbound local `name`.  After the locals are bound the branches follow the
source: the no-data short-circuit, the `loading` update, the parser call,
the stamping, the JDBC append write, the `completed` update carrying the
cursor, the staging deletion, and on any raise the handler. -/
def load (url : String) (b : Batch) (env : Env) (elt_start_time : String) :
    List Event × Outcome :=
  match b.table_name with
  | none => ([], Outcome.raisedUnboundLocal "name")
  | some name =>
    let replication_method := b.replication_method.getD "full"
    let batchsize := b.fetchsize.getD 100000
    let pass_on_error := b.pass_on_error
    if fileTypeFalsy b.file_type then
      ([Event.manifestUpdate ⟨name, none, none, "completed", replication_method, ""⟩],
       Outcome.normal)
    else
      let file_type := b.file_type.getD ""
      let evs0 :=
        [Event.manifestUpdate ⟨name, none, none, "loading", replication_method, ""⟩,
         Event.parserCall file_type]
      match env.parser with
      | PyResult.raised e =>
        failHandler name replication_method elt_start_time pass_on_error evs0 e
      | PyResult.ok df0 =>
        let df := add_custom_columns df0 elt_start_time
        let evs1 := evs0 ++ [Event.sinkWrite df "append" url name driver_jdbc batchsize]
        match env.sink with
        | PyResult.raised e =>
          failHandler name replication_method elt_start_time pass_on_error evs1 e
        | PyResult.ok _ =>
          let evs2 := evs1 ++
            [Event.manifestUpdate
              ⟨name, b.last_point_value, b.iterate_column_type, "completed",
               replication_method, ""⟩]
          match b.path with
          | none =>
            failHandler name replication_method elt_start_time pass_on_error evs2
              "KeyError: path"
          | some p =>
            let evs3 := evs2 ++ [Event.deleteStaging p]
            match env.delete with
            | PyResult.raised e =>
              failHandler name replication_method elt_start_time pass_on_error evs3 e
            | PyResult.ok _ => (evs3, Outcome.normal)

/-- Statuses of the manifest updates in a trace, in order. -/
def manifestStatuses (evs : List Event) : List String :=
  evs.filterMap (fun e =>
    match e with
    | Event.manifestUpdate u => some u.status
    | _ => none)

/-- Whether a trace contains a sink write. -/
def hasSink (evs : List Event) : Bool :=
  evs.any (fun e =>
    match e with
    | Event.sinkWrite _ _ _ _ _ _ => true
    | _ => false)

/-- The text of the first exception raised inside the guarded block during
a run of `load`, when one is raised at all: the descriptor key lookup, the
parser, the sink, the staging-path lookup, and the deletion, in program
order. -/
def guardErr (b : Batch) (env : Env) : Option String :=
  match b.table_name with
  | none => some "KeyError: table_name"
  | some _ =>
    if fileTypeFalsy b.file_type then none
    else
      match env.parser with
      | PyResult.raised e => some e
      | PyResult.ok _ =>
        match env.sink with
        | PyResult.raised e => some e
        | PyResult.ok _ =>
          match b.path with
          | none => some "KeyError: path"
          | some _ =>
            match env.delete with
            | PyResult.raised e => some e
            | PyResult.ok _ => none

/-- Replaces the unused write-mode field of a batch descriptor. -/
def setWriteMode (b : Batch) (w : Option String) : Batch :=
  ⟨b.table_name, w, b.file_type, b.last_point_value, b.iterate_column_type,
   b.replication_method, b.fetchsize, b.pass_on_error, b.path⟩

/- ===== Claim theorems: stamping and URL construction ===== -/

/-- C7: the stamping step is idempotent.  Applying `add_custom_columns`
twice, with any timestamps, yields a structure with exactly one `etl_time`
provenance column (dropped if present, then re-added, never duplicated),
and the result equals applying it once with the second timestamp. -/
theorem claim_C7_stamping_idempotent (df : DF) (t1 t2 : String) :
    (DF.columns (add_custom_columns df t1)).count "etl_time" = 1 ∧
    add_custom_columns (add_custom_columns df t1) t2 = add_custom_columns df t2 := by
  constructor
  · rw [add_custom_columns_eq, columns_append, List.count_append,
      List.count_eq_zero.mpr (stripEtl_not_mem df)]
    simp [DF.columns]
  · calc add_custom_columns (add_custom_columns df t1) t2
        = stripEtl (stripEtl df ++ [("etl_time", ColExpr.tsLit t1)]) ++
            [("etl_time", ColExpr.tsLit t2)] := by
          rw [add_custom_columns_eq df t1, add_custom_columns_eq]
      _ = stripEtl df ++ [("etl_time", ColExpr.tsLit t2)] := by
          rw [stripEtl_append_etl _ (stripEtl_not_mem df)]
      _ = add_custom_columns df t2 := (add_custom_columns_eq df t2).symm

/-- C8 counterexample: the claim says both the username and the password
appearing in the constructed JDBC URL are percent-encoded forms of the
configured values.  With username containing a space, the URL built by the
source differs from the one with both credentials percent-encoded: the
username is embedded verbatim. -/
theorem claim_C8_counterexample :
    jdbc_url "h" "9000" "db" "a b" "pw" ≠
      jdbc_url_escaped_spec "h" "9000" "db" "a b" "pw" := by decide

/-- C8 (amended): only the password is transport-escaped.  The constructed
JDBC URL embeds the username verbatim and the password as its
`quote_plus` percent-encoding, and that encoding emits only URL-safe
characters (unescaped safe bytes, the plus sign, and percent escapes). -/
theorem claim_C8_password_escaped (host port database username password : String) :
    jdbc_url host port database username password =
      "jdbc:clickhouse://" ++ host ++ ":" ++ port ++ "/" ++ database ++
        "?user=" ++ username ++ "&password=" ++ quote_plus password ∧
    ∀ c ∈ (quote_plus password).data, urlSafeOutput c = true :=
  ⟨rfl, quote_plus_safe password⟩

/-- C8 witness: the amended theorem applied at a concrete configuration
whose password contains a space, with the membership hypothesis discharged
at the plus sign the encoding produces. -/
theorem claim_C8_password_escaped_witness :
    (jdbc_url "h" "1" "d" "u" "a b" =
      "jdbc:clickhouse://" ++ "h" ++ ":" ++ "1" ++ "/" ++ "d" ++
        "?user=" ++ "u" ++ "&password=" ++ quote_plus "a b") ∧
    urlSafeOutput (Char.ofNat 43) = true :=
  ⟨(claim_C8_password_escaped "h" "1" "d" "u" "a b").1,
   (claim_C8_password_escaped "h" "1" "d" "u" "a b").2 (Char.ofNat 43) (by decide)⟩

/- ===== Helper lemmas and concrete fixtures for the load theorems ===== -/

theorem failHandler_fst (n r t : String) (p : Option Bool) (evs : List Event) (e : String) :
    (failHandler n r t p evs e).1 =
      evs ++ [Event.manifestUpdate ⟨n, none, none, "failed", r, e⟩] := by
  unfold failHandler
  by_cases hc : p = some true <;> simp [hc]

theorem failHandler_snd (n r t : String) (p : Option Bool) (evs : List Event) (e : String) :
    (failHandler n r t p evs e).2 =
      (if p = some true then Outcome.normal
       else Outcome.raisedWrapped ⟨n, "failed", "loading", e, t⟩) := by
  unfold failHandler
  by_cases hc : p = some true <;> simp [hc]

/-- Environment in which every external call succeeds. -/
def envOk : Env := ⟨PyResult.ok [("id", ColExpr.orig 0)], PyResult.ok (), PyResult.ok ()⟩

/-- Environment in which the JDBC sink write raises. -/
def envSinkFail : Env :=
  ⟨PyResult.ok [("id", ColExpr.orig 0)], PyResult.raised "ConnectionRefused", PyResult.ok ()⟩

/-- Environment in which only the staging deletion raises. -/
def envDeleteFail : Env :=
  ⟨PyResult.ok [("id", ColExpr.orig 0)], PyResult.ok (), PyResult.raised "rm failed"⟩

/-- A full incremental batch descriptor with data, cursor 42, no
pass-on-error flag. -/
def bFull : Batch :=
  ⟨some "orders", none, some "parquet", some "42", some "int", some "incremental",
   none, none, some "stage"⟩

/-- A batch descriptor with an absent file-type tag. -/
def bNoFile : Batch :=
  ⟨some "orders", none, none, some "42", some "int", some "incremental", none, none, none⟩

/-- A batch descriptor missing the required table-name key. -/
def bNoName : Batch :=
  ⟨none, none, some "parquet", none, none, none, none, some true, some "stage"⟩

/- ===== C4: no-data short-circuit ===== -/

/-- C4: for every batch with an absent file-type tag, `load` invokes
neither the parser nor the sink, performs exactly one manifest update
setting status `completed` with cursor value and type passed as `None`
and empty error message, and returns normally. -/
theorem claim_C4_no_data_noop (url : String) (b : Batch) (env : Env) (ts n : String)
    (htn : b.table_name = some n) (hft : b.file_type = none) :
    load url b env ts =
      ([Event.manifestUpdate
          ⟨n, none, none, "completed", b.replication_method.getD "full", ""⟩],
       Outcome.normal) := by
  simp [load, htn, hft, fileTypeFalsy]

/-- C4 witness: the no-data batch produces exactly the one `completed`
update and a normal return. -/
theorem claim_C4_no_data_noop_witness :
    load "u" bNoFile envOk "t" =
      ([Event.manifestUpdate ⟨"orders", none, none, "completed", "incremental", ""⟩],
       Outcome.normal) :=
  claim_C4_no_data_noop "u" bNoFile envOk "t" "orders" rfl rfl

/- ===== C10: missing table-name key ===== -/

/-- C10: if the batch descriptor lacks the required table-name key, the
exception it raises is caught by the guarded block, but the handler then
crashes referencing the unbound local `name`: no manifest update at all is
issued (in particular no `failed` one), the pass-on-error flag is never
consulted, and the error escaping `load` is the unbound-local error. -/
theorem claim_C10_missing_table_name (url : String) (b : Batch) (env : Env) (ts : String)
    (htn : b.table_name = none) :
    load url b env ts = ([], Outcome.raisedUnboundLocal "name") := by
  simp [load, htn]

/-- C10 witness at a concrete descriptor without the table-name key. -/
theorem claim_C10_missing_table_name_witness :
    load "u" bNoName envOk "t" = ([], Outcome.raisedUnboundLocal "name") :=
  claim_C10_missing_table_name "u" bNoName envOk "t" rfl

/- ===== C6: errors before the loading transition ===== -/

/-- C6 counterexample: the claim says an exception raised before the
`loading` transition is outside the guarded block and propagates to the
caller unguarded (as the original key-lookup error).  At a concrete
descriptor missing the table-name key, the run instead ends with the
handler crash on the unbound local `name`, not with the original
key error propagating. -/
theorem claim_C6_counterexample :
    load "u" bNoName envOk "t" = ([], Outcome.raisedUnboundLocal "name") ∧
    load "u" bNoName envOk "t" ≠ ([], Outcome.raisedKeyError "table_name") := by decide

/-- C6 (amended): an exception raised before the `loading` transition is
INSIDE the guarded block.  The handler is entered but crashes referencing
the unbound local `name`, so what reaches the caller is the unbound-local
error, not the original exception; no manifest update is issued and the
pass-on-error flag is never consulted. -/
theorem claim_C6_preloading_error_guarded (url : String) (b : Batch) (env : Env)
    (ts : String) (htn : b.table_name = none) :
    manifestStatuses (load url b env ts).1 = [] ∧
    (load url b env ts).2 = Outcome.raisedUnboundLocal "name" ∧
    (load url b env ts).2 ≠ Outcome.raisedKeyError "table_name" := by
  simp [load, htn, manifestStatuses]

/-- C6 witness at a concrete descriptor raising before the loading
transition. -/
theorem claim_C6_preloading_error_guarded_witness :
    manifestStatuses (load "u2" bNoName envOk "t").1 = [] ∧
    (load "u2" bNoName envOk "t").2 = Outcome.raisedUnboundLocal "name" ∧
    (load "u2" bNoName envOk "t").2 ≠ Outcome.raisedKeyError "table_name" :=
  claim_C6_preloading_error_guarded "u2" bNoName envOk "t" rfl

/- ===== C2: failure handling after the locals are bound ===== -/

/-- When the guarded block raises, the run ends in the handler, applied to
the events issued so far and the text of the first raised exception. -/
theorem load_guard_raised (url : String) (b : Batch) (env : Env) (ts n e : String)
    (htn : b.table_name = some n) (he : guardErr b env = some e) :
    ∃ evs, load url b env ts =
      failHandler n (b.replication_method.getD "full") ts b.pass_on_error evs e := by
  cases hft : fileTypeFalsy b.file_type with
  | true => simp [guardErr, htn, hft] at he
  | false =>
    cases hp : env.parser with
    | raised e2 =>
      have h2 : e2 = e := by simpa [guardErr, htn, hft, hp] using he
      subst h2
      refine ⟨[Event.manifestUpdate
          ⟨n, none, none, "loading", b.replication_method.getD "full", ""⟩,
        Event.parserCall (b.file_type.getD "")], ?_⟩
      simp [load, htn, hft, hp]
    | ok df0 =>
      cases hs : env.sink with
      | raised e2 =>
        have h2 : e2 = e := by simpa [guardErr, htn, hft, hp, hs] using he
        subst h2
        refine ⟨[Event.manifestUpdate
            ⟨n, none, none, "loading", b.replication_method.getD "full", ""⟩,
          Event.parserCall (b.file_type.getD ""),
          Event.sinkWrite (add_custom_columns df0 ts) "append" url n driver_jdbc
            (b.fetchsize.getD 100000)], ?_⟩
        simp [load, htn, hft, hp, hs]
      | ok u =>
        cases hpath : b.path with
        | none =>
          have h2 : "KeyError: path" = e := by
            simpa [guardErr, htn, hft, hp, hs, hpath] using he
          subst h2
          refine ⟨[Event.manifestUpdate
              ⟨n, none, none, "loading", b.replication_method.getD "full", ""⟩,
            Event.parserCall (b.file_type.getD ""),
            Event.sinkWrite (add_custom_columns df0 ts) "append" url n driver_jdbc
              (b.fetchsize.getD 100000),
            Event.manifestUpdate
              ⟨n, b.last_point_value, b.iterate_column_type, "completed",
               b.replication_method.getD "full", ""⟩], ?_⟩
          simp [load, htn, hft, hp, hs, hpath]
        | some p =>
          cases hd : env.delete with
          | raised e2 =>
            have h2 : e2 = e := by simpa [guardErr, htn, hft, hp, hs, hpath, hd] using he
            subst h2
            refine ⟨[Event.manifestUpdate
                ⟨n, none, none, "loading", b.replication_method.getD "full", ""⟩,
              Event.parserCall (b.file_type.getD ""),
              Event.sinkWrite (add_custom_columns df0 ts) "append" url n driver_jdbc
                (b.fetchsize.getD 100000),
              Event.manifestUpdate
                ⟨n, b.last_point_value, b.iterate_column_type, "completed",
                 b.replication_method.getD "full", ""⟩,
              Event.deleteStaging p], ?_⟩
            simp [load, htn, hft, hp, hs, hpath, hd]
          | ok u2 => simp [guardErr, htn, hft, hp, hs, hpath, hd] at he

/-- C2: for every batch carrying its table-name key whose guarded region
raises an exception, `load` first updates the manifest to `failed` with
the exception text as error message and cursor fields passed as `None`
(the failed update is the last external call of the run), and then
returns normally when the pass-on-error flag is truthy, or raises the
wrapping exception with the structured context (table name, stage
`loading`, error text, start timestamp) when it is falsy. -/
theorem claim_C2_failure_handler (url : String) (b : Batch) (env : Env) (ts n e : String)
    (htn : b.table_name = some n) (he : guardErr b env = some e) :
    (∃ evs, (load url b env ts).1 =
        evs ++ [Event.manifestUpdate
          ⟨n, none, none, "failed", b.replication_method.getD "full", e⟩]) ∧
    (load url b env ts).2 =
      (if b.pass_on_error = some true then Outcome.normal
       else Outcome.raisedWrapped ⟨n, "failed", "loading", e, ts⟩) := by
  obtain ⟨evs, hload⟩ := load_guard_raised url b env ts n e htn he
  constructor
  · exact ⟨evs, by rw [hload, failHandler_fst]⟩
  · rw [hload, failHandler_snd]

/-- C2 witness: a sink failure with pass-on-error absent ends with the
`failed` manifest update and the wrapping exception. -/
theorem claim_C2_failure_handler_witness :
    (∃ evs, (load "u" bFull envSinkFail "t").1 =
        evs ++ [Event.manifestUpdate
          ⟨"orders", none, none, "failed", "incremental", "ConnectionRefused"⟩]) ∧
    (load "u" bFull envSinkFail "t").2 =
      Outcome.raisedWrapped ⟨"orders", "failed", "loading", "ConnectionRefused", "t"⟩ :=
  claim_C2_failure_handler "u" bFull envSinkFail "t" "orders" "ConnectionRefused" rfl rfl

/- ===== C9: append mode and batch size ===== -/

/-- Mode and batch size of every sink write in a trace. -/
def sinkModes (evs : List Event) : List (String × Nat) :=
  evs.filterMap (fun e =>
    match e with
    | Event.sinkWrite _ m _ _ _ bs => some (m, bs)
    | _ => none)

/-- C9: every sink write issued by `load` uses mode `append` and the batch
size from the fetchsize field of the descriptor, defaulting to 100000
when absent; the write-mode field of the descriptor is ignored entirely. -/
theorem claim_C9_append_and_batchsize (url : String) (b : Batch) (env : Env) (ts : String) :
    (∀ mb ∈ sinkModes (load url b env ts).1, mb = ("append", b.fetchsize.getD 100000)) ∧
    (∀ w, load url (setWriteMode b w) env ts = load url b env ts) := by
  constructor
  · intro mb hmb
    rcases htn : b.table_name with _ | n
    · simp [load, htn, sinkModes] at hmb
    · cases hft : fileTypeFalsy b.file_type with
      | true => simp [load, htn, hft, sinkModes] at hmb
      | false =>
        cases hp : env.parser with
        | raised e => simp [load, htn, hft, hp, failHandler_fst, sinkModes] at hmb
        | ok df0 =>
          cases hs : env.sink with
          | raised e =>
            simpa [load, htn, hft, hp, hs, failHandler_fst, sinkModes] using hmb
          | ok u =>
            cases hpath : b.path with
            | none =>
              simpa [load, htn, hft, hp, hs, hpath, failHandler_fst, sinkModes] using hmb
            | some p =>
              cases hd : env.delete with
              | raised e =>
                simpa [load, htn, hft, hp, hs, hpath, hd, failHandler_fst, sinkModes]
                  using hmb
              | ok u2 =>
                simpa [load, htn, hft, hp, hs, hpath, hd, sinkModes] using hmb
  · intro w
    cases b
    rfl

/-- C9 witness: in a fully successful run of the concrete batch without a
fetchsize field, the one sink write uses append mode and batch size
100000, and rewriting the write-mode field changes nothing. -/
theorem claim_C9_append_and_batchsize_witness :
    (("append", 100000) : String × Nat) = ("append", bFull.fetchsize.getD 100000) ∧
    load "u" (setWriteMode bFull (some "overwrite")) envOk "t" = load "u" bFull envOk "t" :=
  ⟨(claim_C9_append_and_batchsize "u" bFull envOk "t").1 ("append", 100000) (by decide),
   (claim_C9_append_and_batchsize "u" bFull envOk "t").2 (some "overwrite")⟩

/- ===== C1: state ordering ===== -/

/-- C1 counterexample: the claim says the manifest transitions of a batch
that reaches the write step are observed as `loading` then exactly one of
`completed` or `failed`.  When only the staging deletion raises, the run
reaches the write step yet the observed transitions are `loading`,
`completed`, `failed`. -/
theorem claim_C1_counterexample :
    hasSink (load "u" bFull envDeleteFail "t").1 = true ∧
    manifestStatuses (load "u" bFull envDeleteFail "t").1 =
      ["loading", "completed", "failed"] ∧
    ¬(manifestStatuses (load "u" bFull envDeleteFail "t").1 = ["loading", "completed"] ∨
      manifestStatuses (load "u" bFull envDeleteFail "t").1 = ["loading", "failed"]) := by
  decide

/-- C1 (amended): for every batch that reaches the write step, the first
external call is the `loading` manifest update (cursor fields `None`,
error cleared), strictly before the parser and sink invocations, and the
later manifest transitions are `completed`, or `failed`, or — when the
staging cleanup fails after a successful write — `completed` followed by
`failed`. -/
theorem claim_C1_loading_before_write (url : String) (b : Batch) (env : Env) (ts : String)
    (h : hasSink (load url b env ts).1 = true) :
    ∃ n df tail,
      b.table_name = some n ∧
      (load url b env ts).1 =
        Event.manifestUpdate
          ⟨n, none, none, "loading", b.replication_method.getD "full", ""⟩ ::
        Event.parserCall (b.file_type.getD "") ::
        Event.sinkWrite df "append" url n driver_jdbc (b.fetchsize.getD 100000) :: tail ∧
      (manifestStatuses tail = ["completed"] ∨ manifestStatuses tail = ["failed"] ∨
       manifestStatuses tail = ["completed", "failed"]) := by
  rcases htn : b.table_name with _ | n
  · simp [load, htn, hasSink] at h
  · cases hft : fileTypeFalsy b.file_type with
    | true => simp [load, htn, hft, hasSink] at h
    | false =>
      cases hp : env.parser with
      | raised e => simp [load, htn, hft, hp, failHandler_fst, hasSink] at h
      | ok df0 =>
        refine ⟨n, add_custom_columns df0 ts, ?_⟩
        cases hs : env.sink with
        | raised e =>
          exact ⟨[Event.manifestUpdate
              ⟨n, none, none, "failed", b.replication_method.getD "full", e⟩],
            rfl, by simp [load, htn, hft, hp, hs, failHandler_fst],
            Or.inr (Or.inl rfl)⟩
        | ok u0 =>
          cases hpath : b.path with
          | none =>
            exact ⟨[Event.manifestUpdate
                ⟨n, b.last_point_value, b.iterate_column_type, "completed",
                 b.replication_method.getD "full", ""⟩,
              Event.manifestUpdate
                ⟨n, none, none, "failed", b.replication_method.getD "full",
                 "KeyError: path"⟩],
              rfl, by simp [load, htn, hft, hp, hs, hpath, failHandler_fst],
              Or.inr (Or.inr rfl)⟩
          | some p =>
            cases hd : env.delete with
            | raised e =>
              exact ⟨[Event.manifestUpdate
                  ⟨n, b.last_point_value, b.iterate_column_type, "completed",
                   b.replication_method.getD "full", ""⟩,
                Event.deleteStaging p,
                Event.manifestUpdate
                  ⟨n, none, none, "failed", b.replication_method.getD "full", e⟩],
                rfl, by simp [load, htn, hft, hp, hs, hpath, hd, failHandler_fst],
                Or.inr (Or.inr rfl)⟩
            | ok u2 =>
              exact ⟨[Event.manifestUpdate
                  ⟨n, b.last_point_value, b.iterate_column_type, "completed",
                   b.replication_method.getD "full", ""⟩,
                Event.deleteStaging p],
                rfl, by simp [load, htn, hft, hp, hs, hpath, hd],
                Or.inl rfl⟩

/-- C1 witness: the amended theorem applied to a fully successful concrete
run. -/
theorem claim_C1_loading_before_write_witness :
    ∃ n df tail,
      bFull.table_name = some n ∧
      (load "u" bFull envOk "t").1 =
        Event.manifestUpdate
          ⟨n, none, none, "loading", bFull.replication_method.getD "full", ""⟩ ::
        Event.parserCall (bFull.file_type.getD "") ::
        Event.sinkWrite df "append" "u" n driver_jdbc (bFull.fetchsize.getD 100000) :: tail ∧
      (manifestStatuses tail = ["completed"] ∨ manifestStatuses tail = ["failed"] ∨
       manifestStatuses tail = ["completed", "failed"]) :=
  claim_C1_loading_before_write "u" bFull envOk "t" (by decide)

/- ===== C3: cursor write-through ===== -/

/-- The batch had data and both the parser call and the sink write
succeeded: the run reached the announce-success manifest update. -/
def writeSucceeded (b : Batch) (env : Env) : Bool :=
  !(fileTypeFalsy b.file_type) && PyResult.isOk env.parser && PyResult.isOk env.sink

/-- C3 counterexample: the claim requires cursor write-through if and only
if the load completed successfully.  When only the staging deletion raises
(pass-on-error absent), `load` does not complete successfully — it raises —
yet the `completed` update written before the deletion already carried the
cursor value and type through. -/
theorem claim_C3_counterexample :
    (load "u" bFull envDeleteFail "t").2 ≠ Outcome.normal ∧
    Event.manifestUpdate ⟨"orders", some "42", some "int", "completed", "incremental", ""⟩ ∈
      (load "u" bFull envDeleteFail "t").1 := by decide

/-- C3 (amended): cursor value and type are written through exactly on the
announce-success update, which is issued precisely when the batch had data
and the parser and sink calls succeeded — even if the attempt afterwards
turns into a failure during staging cleanup.  Every other manifest update
(`loading`, `failed`, and the no-op `completed`) passes cursor value and
type as `None`, meaning unchanged. -/
theorem claim_C3_cursor_writethrough (url : String) (b : Batch) (env : Env) (ts n : String)
    (htn : b.table_name = some n) :
    (∀ u, Event.manifestUpdate u ∈ (load url b env ts).1 →
      (u.value = none ∧ u.value_type = none) ∨
      (writeSucceeded b env = true ∧
       u = ⟨n, b.last_point_value, b.iterate_column_type, "completed",
            b.replication_method.getD "full", ""⟩)) ∧
    (writeSucceeded b env = true →
      Event.manifestUpdate
        ⟨n, b.last_point_value, b.iterate_column_type, "completed",
         b.replication_method.getD "full", ""⟩ ∈ (load url b env ts).1) := by
  cases hft : fileTypeFalsy b.file_type with
  | true =>
    constructor
    · intro u hmem
      simp [load, htn, hft] at hmem
      subst hmem
      exact Or.inl ⟨rfl, rfl⟩
    · intro hws
      simp [writeSucceeded, hft] at hws
  | false =>
    cases hp : env.parser with
    | raised e =>
      constructor
      · intro u hmem
        simp [load, htn, hft, hp, failHandler_fst] at hmem
        rcases hmem with h | h <;> subst h <;> exact Or.inl ⟨rfl, rfl⟩
      · intro hws
        simp [writeSucceeded, hft, hp, PyResult.isOk] at hws
    | ok df0 =>
      cases hs : env.sink with
      | raised e =>
        constructor
        · intro u hmem
          simp [load, htn, hft, hp, hs, failHandler_fst] at hmem
          rcases hmem with h | h <;> subst h <;> exact Or.inl ⟨rfl, rfl⟩
        · intro hws
          simp [writeSucceeded, hft, hp, hs, PyResult.isOk] at hws
      | ok u0 =>
        have hws : writeSucceeded b env = true := by
          simp [writeSucceeded, hft, hp, hs, PyResult.isOk]
        cases hpath : b.path with
        | none =>
          constructor
          · intro u hmem
            simp [load, htn, hft, hp, hs, hpath, failHandler_fst] at hmem
            rcases hmem with h | h | h
            · subst h; exact Or.inl ⟨rfl, rfl⟩
            · subst h; exact Or.inr ⟨hws, rfl⟩
            · subst h; exact Or.inl ⟨rfl, rfl⟩
          · intro _
            simp [load, htn, hft, hp, hs, hpath, failHandler_fst]
        | some p =>
          cases hd : env.delete with
          | raised e =>
            constructor
            · intro u hmem
              simp [load, htn, hft, hp, hs, hpath, hd, failHandler_fst] at hmem
              rcases hmem with h | h | h
              · subst h; exact Or.inl ⟨rfl, rfl⟩
              · subst h; exact Or.inr ⟨hws, rfl⟩
              · subst h; exact Or.inl ⟨rfl, rfl⟩
            · intro _
              simp [load, htn, hft, hp, hs, hpath, hd, failHandler_fst]
          | ok u2 =>
            constructor
            · intro u hmem
              simp [load, htn, hft, hp, hs, hpath, hd] at hmem
              rcases hmem with h | h
              · subst h; exact Or.inl ⟨rfl, rfl⟩
              · subst h; exact Or.inr ⟨hws, rfl⟩
            · intro _
              simp [load, htn, hft, hp, hs, hpath, hd]

/-- C3 witness: in a successful concrete run the announce-success update
carries the cursor through, and the amended theorem instantiates there. -/
theorem claim_C3_cursor_writethrough_witness :
    Event.manifestUpdate ⟨"orders", some "42", some "int", "completed", "incremental", ""⟩ ∈
      (load "u" bFull envOk "t").1 :=
  (claim_C3_cursor_writethrough "u" bFull envOk "t" "orders" rfl).2 (by decide)

/- ===== C5: staging cleanup ===== -/

/-- C5 counterexample: the claim says a failure of the staging deletion is
not fatal, `load` still returning normally with the manifest left in
`completed`.  When only the deletion raises (parser and sink succeeded,
pass-on-error absent), `load` raises and the manifest receives a final
`failed` update after the `completed` one. -/
theorem claim_C5_counterexample :
    PyResult.isOk envDeleteFail.parser = true ∧
    PyResult.isOk envDeleteFail.sink = true ∧
    envDeleteFail.delete = PyResult.raised "rm failed" ∧
    (load "u" bFull envDeleteFail "t").2 ≠ Outcome.normal ∧
    manifestStatuses (load "u" bFull envDeleteFail "t").1 =
      ["loading", "completed", "failed"] := by
  decide

/-- C5 (amended): the staging deletion is invoked only on the success
path, immediately after the `completed` manifest update; but its failure
is routed through the generic exception handler like any other in-guard
error: the manifest receives a `failed` update and `load` raises the
wrapping exception unless the pass-on-error flag is truthy. -/
theorem claim_C5_cleanup_position (url : String) (b : Batch) (env : Env) (ts p : String)
    (hdel : Event.deleteStaging p ∈ (load url b env ts).1) :
    ∃ n df0,
      b.table_name = some n ∧ b.path = some p ∧
      env.parser = PyResult.ok df0 ∧ PyResult.isOk env.sink = true ∧
      (load url b env ts).1 =
        [Event.manifestUpdate
           ⟨n, none, none, "loading", b.replication_method.getD "full", ""⟩,
         Event.parserCall (b.file_type.getD ""),
         Event.sinkWrite (add_custom_columns df0 ts) "append" url n driver_jdbc
           (b.fetchsize.getD 100000),
         Event.manifestUpdate
           ⟨n, b.last_point_value, b.iterate_column_type, "completed",
            b.replication_method.getD "full", ""⟩,
         Event.deleteStaging p] ++
        (match env.delete with
         | PyResult.ok _ => []
         | PyResult.raised e =>
             [Event.manifestUpdate
               ⟨n, none, none, "failed", b.replication_method.getD "full", e⟩]) ∧
      (load url b env ts).2 =
        (match env.delete with
         | PyResult.ok _ => Outcome.normal
         | PyResult.raised e =>
             if b.pass_on_error = some true then Outcome.normal
             else Outcome.raisedWrapped ⟨n, "failed", "loading", e, ts⟩) := by
  rcases htn : b.table_name with _ | n
  · simp [load, htn] at hdel
  · cases hft : fileTypeFalsy b.file_type with
    | true => simp [load, htn, hft] at hdel
    | false =>
      cases hp : env.parser with
      | raised e => simp [load, htn, hft, hp, failHandler_fst] at hdel
      | ok df0 =>
        cases hs : env.sink with
        | raised e => simp [load, htn, hft, hp, hs, failHandler_fst] at hdel
        | ok u0 =>
          cases hpath : b.path with
          | none => simp [load, htn, hft, hp, hs, hpath, failHandler_fst] at hdel
          | some p0 =>
            cases hd : env.delete with
            | raised e =>
              have hp0 : p = p0 := by
                simpa [load, htn, hft, hp, hs, hpath, hd, failHandler_fst] using hdel
              subst hp0
              refine ⟨n, df0, rfl, rfl, rfl, by simp [hs, PyResult.isOk], ?_, ?_⟩
              · simp [load, htn, hft, hp, hs, hpath, hd, failHandler_fst]
              · simp [load, htn, hft, hp, hs, hpath, hd, failHandler_snd]
            | ok u2 =>
              have hp0 : p = p0 := by
                simpa [load, htn, hft, hp, hs, hpath, hd] using hdel
              subst hp0
              refine ⟨n, df0, rfl, rfl, rfl, by simp [hs, PyResult.isOk], ?_, ?_⟩
              · simp [load, htn, hft, hp, hs, hpath, hd]
              · simp [load, htn, hft, hp, hs, hpath, hd]

/-- C5 witness: a concrete successful run performs the staging deletion,
with the sink already succeeded. -/
theorem claim_C5_cleanup_position_witness :
    Event.deleteStaging "stage" ∈ (load "u" bFull envOk "t").1 ∧
    PyResult.isOk envOk.sink = true := by
  refine ⟨by decide, ?_⟩
  obtain ⟨n, df0, _, _, _, hs, _, _⟩ :=
    claim_C5_cleanup_position "u" bFull envOk "t" "stage" (by decide)
  exact hs
